import Mathlib

/-!
Shallow embedding of the email classification and entity-extraction pipeline
of the Job_Application_Tracker repository (src/job_email_finder.py, src/utils.py),
together with theorems checking the natural-language specification against it.

Strings are modelled as Lean `String` (a wrapper around `List Char`); Python
string operations (`in`, `.lower()`, `.strip()`, slicing, `.replace`) are given
as executable definitions below.  Library facilities that are external to the
repository (base64 decoding, the spaCy NLP model, the Gmail service) are
modelled as abstract function parameters.
-/

/-- Does the first list occur at the head of the second list?
(Helper for Python's substring test.) -/
def matchFront : List Char → List Char → Bool
  | [], _ => true
  | _ :: _, [] => false
  | a :: as, b :: bs => a == b && matchFront as bs

/-- Does `needle` occur as a contiguous sublist of `hay`?
(Python's `needle in hay` on strings.) -/
def containsList (needle : List Char) : List Char → Bool
  | [] => matchFront needle []
  | c :: t => matchFront needle (c :: t) || containsList needle t

/-- Python `needle in hay` for strings. -/
def pyIn (needle hay : String) : Bool :=
  containsList needle.data hay.data

/-- ASCII lower-casing of one character, the behaviour of Python `str.lower`
on the ASCII range (all strings handled by this program are ASCII apart from
punctuation, which is unaffected). -/
def pyLowerChar (c : Char) : Char :=
  if h : 65 ≤ c.toNat ∧ c.toNat ≤ 90 then
    Char.ofNatAux (c.toNat + 32) (Or.inl (by omega))
  else c

/-- Python `str.lower`. -/
def pyLower (s : String) : String :=
  ⟨s.data.map pyLowerChar⟩

/-- Is `c` an ASCII uppercase letter? -/
def isUpperAscii (c : Char) : Bool :=
  decide (65 ≤ c.toNat ∧ c.toNat ≤ 90)

/-- The keyword table `JOB_KEYWORDS` of src/job_email_finder.py, in Python
dict insertion order.  Note the two adjacent string literals on the source
lines 126-127, which Python concatenates into the single list element
`"move forward with other candidateswith other candidates"`. -/
def JOB_KEYWORDS : List (String × List String) :=
  [("application",
    ["application received",
     "thank you for applying",
     "we received your application",
     "application submitted",
     "application confirmation",
     "thank you for your interest",
     "thanks for applying",
     "your application has been received",
     "your application has been submitted",
     "your application has been confirmed",
     "thank you for your job application",
     "successfully applied",
     "thanks for completing your application",
     "thank you for your application",
     "you have successfully applied",
     "we\x27ve received your application",
     "you have successfully submitted"]),
   ("interview",
    ["interview",
     "phone screen",
     "technical interview",
     "onsite interview",
     "video call",
     "interview invitation",
     "schedule an interview",
     "interview request"]),
   ("assessment",
    ["coding assessment",
     "technical assessment",
     "coding challenge",
     "technical challenge",
     "hirevue",
     "virtual interview",
     "online assessment",
     "skills assessment",
     "programming challenge",
     "take home assignment",
     "coding test",
     "technical test",
     "assessment invitation",
     "complete your assessment",
     "pre-interview assessment",
     "next step: assessment",
     "hackerrank",
     "codility",
     "codesignal"]),
   ("offers",
    ["job offer",
     "offer of employment",
     "employment offer",
     "we would like to extend",
     "we are pleased to offer you",
     "congratulations on your",
     "offer letter",
     "position offer",
     "we are excited to offer",
     "pleased to extend an offer",
     "pleased to offer",
     "excited to offer",
     "would like to extend an offer",
     "we are pleased to inform you"]),
   ("rejections",
    ["unfortunately",
     "position has been filled",
     "we have decided to move forward",
     "we have decided not to move forward",
     "thank you for your time and interest",
     "we will not be moving forward",
     "after careful consideration",
     "we regret to inform",
     "we have chosen to proceed",
     "not selected for this position",
     "we have decided to pursue",
     "thank you for your interest, however",
     "we appreciate your interest, but",
     "we will be moving forward with other candidates",
     "we regret",
     "not selected",
     "decided to move forward with other candidates",
     "chosen to proceed with other applicants",
     "we have decided to pursue other candidates",
     "not be moving to the next round",
     "we will not be proceeding",
     "we have decided not to proceed",
     "we are unable to move forward",
     "we cannot move forward",
     "we have decided to go with",
     "we have selected another candidate",
     "we have chosen another candidate",
     "we will be proceeding with other candidates",
     "we have decided to pursue other applicants",
     "not moving forward with your application",
     "we will not be considering your application further",
     "your application was not selected",
     "we have decided to decline",
     "we must respectfully decline",
     "we are not able to offer you",
     "we will not be extending an offer",
     "you have not been selected to move forward",
     "not been selected to move forward",
     "have not been selected",
     "candidates whose experience and qualifications are more aligned",
     "more aligned with our needs",
     "selected candidates whose experience",
     "we have selected candidates",
     "move forward with other candidateswith other candidates",
     "with other applicants",
     "pursue other candidates",
     "your application at",
     "more closely aligns with",
     "more closely match our requirements",
     "more closely match our needs",
     "more closely match our criteria",
     "more closely match our qualifications",
     "more closely match our experience",
     "more closely match our skills",
     "more closely match",
     "more closely match our abilities",
     "move forward with other applicants",
     "move forward with other candidates",
     "move forward with other applicants"])]

/-- The category loop of `classify_job_email_with_body`
(src/job_email_finder.py lines 321-333): for `rejections`/`offers` the body
is scanned first, then for every category the subject is scanned, returning
on the first hit. -/
def classifyGo (subject_lower body_lower : String) :
    List (String × List String) → String
  | [] => "unknown"
  | (category, keywords) :: rest =>
    if (category == "rejections" || category == "offers")
        && keywords.any (fun k => pyIn (pyLower k) body_lower) then category
    else if keywords.any (fun k => pyIn (pyLower k) subject_lower) then category
    else classifyGo subject_lower body_lower rest

/-- `classify_job_email_with_body` (src/job_email_finder.py lines 315-333):
`subject_lower` is the lower-cased subject, `body_lower` the lower-cased body
(`''` for a falsy body). -/
def classify_job_email_with_body (subject body_text : String) : String :=
  classifyGo (pyLower subject)
    (if body_text = "" then "" else pyLower body_text) JOB_KEYWORDS

/-- The test the spec sentence of claim C1 attaches to one category: for
`offers` and `rejections` body containment of every keyword is tested before
subject containment, for the other categories only the subject is tested. -/
def claimCategoryTest (subject_lower body_lower : String)
    (category : String) (keywords : List String) : Bool :=
  if category == "offers" || category == "rejections" then
    keywords.any (fun k => pyIn (pyLower k) body_lower)
      || keywords.any (fun k => pyIn (pyLower k) subject_lower)
  else
    keywords.any (fun k => pyIn (pyLower k) subject_lower)

/-- The classifier as described by claim C1: the first category in
declaration order whose test succeeds, `unknown` if none does. -/
def classifyClaim (subject body_text : String) : String :=
  let subject_lower := pyLower subject
  let body_lower := if body_text = "" then "" else pyLower body_text
  match JOB_KEYWORDS.find? (fun ck =>
      claimCategoryTest subject_lower body_lower ck.1 ck.2) with
  | some ck => ck.1
  | none => "unknown"

/-- A MIME body record: the optional base64 payload under the `data` key
(`none` models an absent `data` field). -/
structure MsgBody where
  data : Option String
deriving DecidableEq

/-- One entry of a payload's `parts` list. -/
structure MsgPart where
  mimeType : String
  body : MsgBody
deriving DecidableEq

/-- An email header name/value pair. -/
structure EmailHeader where
  name : String
  value : String
deriving DecidableEq

/-- The `payload` object of a Gmail message: mime type, body, optional
`parts` list (`none` models an absent key) and the header list. -/
structure Payload where
  mimeType : String
  body : MsgBody
  parts : Option (List MsgPart)
  headers : List EmailHeader
deriving DecidableEq

/-- A fetched Gmail message (`msg_data`); only the payload is read. -/
structure EmailMsg where
  payload : Payload
deriving DecidableEq

/-- Scan for the closing `>` of an HTML tag: consume characters until the
first `>`, failing on `<` or the end of input.  Returns the remainder after
the `>`, together with the fact that it is shorter than the input. -/
def tagEnd : (l : List Char) → Option { r : List Char // r.length < l.length }
  | [] => none
  | c :: rest =>
    if c = '>' then some ⟨rest, by simp⟩
    else if c = '<' then none
    else
      match tagEnd rest with
      | some ⟨r, hr⟩ => some ⟨r, by simp; omega⟩
      | none => none

/-- The effect of Python's `re.sub('<[^<]+?>', '', s)` (src/job_email_finder.py
lines 296, 306): left-to-right scan deleting every non-overlapping match of
`<`, one or more non-`<` characters (lazily), `>`. -/
def stripTags : List Char → List Char
  | [] => []
  | c :: rest =>
    if c = '<' then
      match rest with
      | [] => ['<']
      | d :: rest2 =>
        if d = '<' then '<' :: stripTags (d :: rest2)
        else
          match tagEnd rest2 with
          | some ⟨rem, hrem⟩ => stripTags rem
          | none => '<' :: stripTags (d :: rest2)
    else c :: stripTags rest
termination_by l => l.length
decreasing_by
  all_goals simp_all only [List.length_cons]
  all_goals omega

/-- `re.sub` tag removal on a `String`. -/
def pyStripTags (s : String) : String :=
  ⟨stripTags s.data⟩

/-- Python's single-character `str.replace`. -/
def pyReplaceChar (a b : Char) (s : String) : String :=
  ⟨s.data.map (fun c => if c = a then b else c)⟩

/-- The whitespace characters stripped by Python's `str.strip()`. -/
def pyWs (c : Char) : Bool :=
  c == ' ' || c == '\t' || c == '\n' || c == '\r' || c == '\x0b' || c == '\x0c'

/-- Python `str.strip()`: drop leading and trailing whitespace. -/
def pyStrip (s : String) : String :=
  ⟨(((s.data.dropWhile pyWs).reverse.dropWhile pyWs).reverse : List Char)⟩

/-- Python slicing `s[:n]` (by code point). -/
def pyTake (n : Nat) (s : String) : String :=
  ⟨s.data.take n⟩

/-- The clean-up applied to a successfully decoded body
(src/job_email_finder.py lines 309-310): replace `\n` and `\r` by spaces,
strip, truncate to 2000 characters, lower-case. -/
def pyNormalize (raw : String) : String :=
  pyLower (pyTake 2000 (pyStrip (pyReplaceChar '\r' ' ' (pyReplaceChar '\n' ' ' raw))))

/-- The multipart loop of `extract_email_body`
(src/job_email_finder.py lines 286-296), accumulating into `acc`
(the Python variable `body_text`).  `decode` models
`base64.urlsafe_b64decode(...).decode('utf-8')`; a `none` result models a
raised exception, which aborts the whole extraction. -/
def extract_parts (decode : String → Option String) :
    List MsgPart → String → Option String
  | [], acc => some acc
  | p :: ps, acc =>
    if p.mimeType = "text/plain" then
      match p.body.data with
      | some d =>
        match decode d with
        | some t => extract_parts decode ps (acc ++ t)
        | none => none
      | none => extract_parts decode ps acc
    else if p.mimeType = "text/html" then
      match p.body.data with
      | some d =>
        if acc = "" then
          match decode d with
          | some t => extract_parts decode ps (pyStripTags t)
          | none => none
        else extract_parts decode ps acc
      | none => extract_parts decode ps acc
    else extract_parts decode ps acc

/-- The body of `extract_email_body`'s `try` block before the final clean-up
(src/job_email_finder.py lines 280-307); `none` models an exception reaching
the `except` handler. -/
def extract_body_core (decode : String → Option String) (payload : Payload) :
    Option String :=
  match payload.parts with
  | some parts => extract_parts decode parts ""
  | none =>
    if payload.mimeType = "text/plain" then
      match payload.body.data with
      | some d => decode d
      | none => some ""
    else if payload.mimeType = "text/html" then
      match payload.body.data with
      | some d => (decode d).map pyStripTags
      | none => some ""
    else some ""

/-- `extract_email_body` (src/job_email_finder.py lines 277-313): decode the
payload, normalize, and return the empty string on any exception. -/
def extract_email_body (decode : String → Option String) (msg_data : EmailMsg) :
    String :=
  match extract_body_core decode msg_data.payload with
  | some raw => pyNormalize raw
  | none => ""

/-- The `data` of a part when it is a `text/plain` part, else `none`. -/
def plainData (p : MsgPart) : Option String :=
  if p.mimeType = "text/plain" then p.body.data else none

/-- Left fold concatenating strings onto `acc`. -/
def strConcat (acc : String) (l : List String) : String :=
  l.foldl (fun a b => a ++ b) acc

/-- Modelled from the claim's words (C2): use the first `text/plain` part
found as the body text; only if no `text/plain` part exists fall back to the
first `text/html` part, with tags removed. -/
def claimMultipartBody (decode : String → Option String)
    (parts : List MsgPart) : String :=
  match parts.find? (fun p => p.mimeType == "text/plain" && p.body.data.isSome) with
  | some p => (p.body.data.bind decode).getD ""
  | none =>
    match parts.find? (fun p => p.mimeType == "text/html" && p.body.data.isSome) with
    | some p => pyStripTags ((p.body.data.bind decode).getD "")
    | none => ""

/-- The html fallback of the amended claim C2: the tag-stripped text of the
first `text/html` part (with data) whose stripped text is non-empty; `none`
models a decode exception, `some ""` the absence of any such part. -/
def htmlFallback (decode : String → Option String) : List MsgPart → Option String
  | [] => some ""
  | p :: ps =>
    if p.mimeType = "text/html" then
      match p.body.data with
      | some d =>
        match decode d with
        | some t => if pyStripTags t = "" then htmlFallback decode ps
                    else some (pyStripTags t)
        | none => none
      | none => htmlFallback decode ps
    else htmlFallback decode ps

/-- The financial/marketing subject keywords of `is_non_job_email`
(src/job_email_finder.py lines 341-345). -/
def financial_keywords : List String :=
  ["credit card", "cash back", "rewards", "bonus offer",
   "investment", "cd rate", "cash rewards", "$", "%",
   "credit", "savings", "checking", "loan"]

/-- The bank/financial sender markers (src/job_email_finder.py lines 348-351). -/
def bank_senders : List String :=
  ["bankofamerica", "chase", "wells fargo", "citi", "discover",
   "american express", "capital one", "usbank"]

/-- The news/newsletter sender markers (src/job_email_finder.py lines 354-358). -/
def news_senders : List String :=
  ["linkedin.com", "glassdoor.com", "tldrnewsletter.com",
   "news", "newsletter", "editors-noreply", "community",
   "quora", "digest", "beehiiv", "motley fool", "talentinsightsweekly"]

/-- Rule 1 of the Non-Job Filter: a financial keyword in the subject. -/
def financialRule (subject_lower : String) : Bool :=
  financial_keywords.any (fun k => pyIn k subject_lower)

/-- Rule 2 of the Non-Job Filter: a bank sender without job-context markers
(src/job_email_finder.py lines 366-375). -/
def bankRule (subject_lower sender_lower : String) : Bool :=
  bank_senders.any (fun bank =>
    pyIn bank sender_lower
    && !pyIn "thank you for applying" subject_lower
    && !pyIn "interview" subject_lower
    && !pyIn "talent acquisition" sender_lower
    && !pyIn "careers" sender_lower
    && !pyIn "recruiting" sender_lower
    && !pyIn "hr" sender_lower
    && !pyIn "application" subject_lower)

/-- Rule 3 of the Non-Job Filter: a news/newsletter sender. -/
def newsRule (sender_lower : String) : Bool :=
  news_senders.any (fun k => pyIn k sender_lower)

/-- Rule 4 of the Non-Job Filter: a generic "interest" subject without any
job marker (src/job_email_finder.py lines 385-391). -/
def genericInterestRule (subject_lower : String) : Bool :=
  pyIn "thank you for your interest" subject_lower
  && !pyIn "applying" subject_lower
  && !pyIn "application" subject_lower
  && !pyIn "position" subject_lower
  && !pyIn "job" subject_lower
  && !pyIn "career" subject_lower

/-- `is_non_job_email` (src/job_email_finder.py lines 335-393): the four
rules in source order, first hit excludes. -/
def is_non_job_email (subject sender : String) : Bool :=
  if financialRule (pyLower subject) then true
  else if bankRule (pyLower subject) (pyLower sender) then true
  else if newsRule (pyLower sender) then true
  else if genericInterestRule (pyLower subject) then true
  else false

/-- Python truthiness of an optional string (`None` and `''` are falsy). -/
def pyTruthy : Option String → Bool
  | none => false
  | some s => !(s == "")

/-- One source attempt of `extract_position` (src/utils.py lines 539-555):
`if src: r = f(src); if r: return r`.  Abstract `f` stands for the
spaCy-based leaf extractor. -/
def tryPosSource (f : String → Option String) (src : Option String) :
    Option String :=
  match src with
  | none => none
  | some s =>
    if s = "" then none
    else
      match f s with
      | none => none
      | some r => if r = "" then none else some r

/-- `extract_position` (src/utils.py lines 527-557), parameterized by the
three spaCy-based leaf extractors (subject, body, preview). -/
def extract_position (fsubject fbody fpreview : String → Option String)
    (body preview subject : Option String) : Option String :=
  match tryPosSource fsubject subject with
  | some r => some r
  | none =>
    match tryPosSource fbody body with
    | some r => some r
    | none => tryPosSource fpreview preview

/-- The source order stated by claim C5: subject, then body, then preview,
first truthy result wins. -/
def claimPositionOrder (fsubject fbody fpreview : String → Option String)
    (body preview subject : Option String) : Option String :=
  [(fsubject, subject), (fbody, body), (fpreview, preview)].findSome?
    (fun fs => tryPosSource fs.1 fs.2)

/-- The preview passed by the pipeline (src/job_email_finder.py line 258):
`body_text[:200] if body_text else None`. -/
def pipelinePreview (body_text : String) : Option String :=
  if body_text = "" then none else some (pyTake 200 body_text)

/-- The generic/ATS company-name stoplist of `extract_company`
(src/utils.py lines 582-588). -/
def generic_companies : List String :=
  ["greenhouse", "workday", "myworkday", "lever", "bamboohr", "smartrecruiters",
   "icims", "jobvite", "taleo", "cornerstone", "successfactors", "talent",
   "ashbyhq", "ripplematch", "mail", "noreply", "jobs", "careers", "hiring", "hr",
   "software", "intern", "engineering", "engineer", "developer", "manager",
   "us", "no", "system", "notification", "notifications"]

/-- Is the (optional) extracted name in the generic stoplist, after
lower-casing? -/
def genericRes (o : Option String) : Bool :=
  generic_companies.contains (pyLower (o.getD ""))

/-- `if src: r = f(src)` for one company source; abstract `f` stands for the
spaCy-based leaf extractor. -/
def companyFromOpt (f : String → Option String) : Option String → Option String
  | none => none
  | some s => if s = "" then none else f s

/-- `extract_company` (src/utils.py lines 560-609), parameterized by the two
spaCy-based leaf extractors (sender, subject). -/
def extract_company (fsender fsubject : String → Option String)
    (sender subject : Option String) : Option String :=
  let sender_company := companyFromOpt fsender sender
  let subject_company := companyFromOpt fsubject subject
  if pyTruthy sender_company && pyTruthy subject_company then
    if genericRes sender_company then subject_company
    else if genericRes subject_company then sender_company
    else subject_company
  else if pyTruthy subject_company then subject_company
  else if pyTruthy sender_company && !genericRes sender_company then sender_company
  else none

/-- The reconciliation rule as stated by claim C4. -/
def claimReconcile (sender_company subject_company : Option String) :
    Option String :=
  if pyTruthy sender_company && pyTruthy subject_company then
    if genericRes subject_company && !genericRes sender_company then sender_company
    else subject_company
  else if pyTruthy subject_company then subject_company
  else if pyTruthy sender_company && !genericRes sender_company then sender_company
  else none

/-- The abstract spaCy-based leaf extractors used by the pipeline
(`extract_company_from_sender`, `extract_company_from_email`,
`extract_position_from_subject`, `extract_position_from_body`,
`extract_position_from_preview` of src/utils.py). -/
structure NlpDeps where
  companyFromSender : String → Option String
  companyFromSubject : String → Option String
  positionFromSubject : String → Option String
  positionFromBody : String → Option String
  positionFromPreview : String → Option String

/-- The record assembled by `get_email_details`
(src/job_email_finder.py lines 262-271). -/
structure JobEmailRecord where
  id : String
  subject : String
  sender : String
  date : String
  body_snippet : String
  category : String
  company : Option String
  position : Option String
deriving DecidableEq

/-- `next((h['value'] for h in headers if h['name'] == nm), fallback)`. -/
def headerValue (headers : List EmailHeader) (nm fallback : String) : String :=
  match headers.find? (fun h => h.name == nm) with
  | some h => h.value
  | none => fallback

/-- `get_email_details` (src/job_email_finder.py lines 231-275).  `fetch`
models the Gmail `messages().get` call, `none` a raised exception (caught by
the function, which then returns `None`). -/
def get_email_details (deps : NlpDeps) (decode : String → Option String)
    (fetch : String → Option EmailMsg) (message_id : String) :
    Option JobEmailRecord :=
  match fetch message_id with
  | none => none
  | some msg_data =>
    let headers := msg_data.payload.headers
    let subject := headerValue headers "Subject" "No Subject"
    let sender := headerValue headers "From" "No Sender"
    let date := headerValue headers "Date" "No Date"
    if is_non_job_email subject sender then none
    else
      let body_text := extract_email_body decode msg_data
      some {
        id := message_id
        subject := subject
        sender := sender
        date := date
        body_snippet := if body_text = "" then "" else pyTake 500 body_text
        category := classify_job_email_with_body subject body_text
        company := extract_company deps.companyFromSender deps.companyFromSubject
          (some sender) (some subject)
        position := extract_position deps.positionFromSubject deps.positionFromBody
          deps.positionFromPreview (some body_text) (pipelinePreview body_text)
          (some subject) }

/-- The accumulation loop of `find_job_emails`
(src/job_email_finder.py lines 210-225): keep the non-`None` results of
`get_email_details`, in order. -/
def find_job_emails (deps : NlpDeps) (decode : String → Option String)
    (fetch : String → Option EmailMsg) (ids : List String) :
    List JobEmailRecord :=
  ids.filterMap (get_email_details deps decode fetch)

/-- The six category labels of the spec's `Category` type. -/
def categoryLabels : List String :=
  ["application", "interview", "assessment", "offers", "rejections", "unknown"]

/-- A decode function that succeeds on every payload, used as a concrete
instantiation in witnesses. -/
def decodeId : String → Option String := fun d => some d

/-- A decode function that fails on every payload (models malformed
base64), used as a concrete instantiation in witnesses. -/
def decodeFail : String → Option String := fun _ => none

/-- Two `text/plain` parts, the concrete input refuting the
first-plain-part-only reading of claim C2. -/
def partsC2 : List MsgPart :=
  [⟨"text/plain", ⟨some "a"⟩⟩, ⟨"text/plain", ⟨some "b"⟩⟩]

/-- A multipart message containing `partsC2`. -/
def msgC2 : EmailMsg :=
  ⟨⟨"multipart/alternative", ⟨none⟩, some partsC2, []⟩⟩

/-- A single `text/html` part carrying data. -/
def partsHtmlFail : List MsgPart :=
  [⟨"text/html", ⟨some "zz"⟩⟩]

/-- A multipart payload containing only `partsHtmlFail`. -/
def payloadHtmlFail : Payload :=
  ⟨"multipart/alternative", ⟨none⟩, some partsHtmlFail, []⟩

/-- A `text/plain` part whose data will fail to decode, for the C8 witness. -/
def partBad : MsgPart :=
  ⟨"text/plain", ⟨some "!!bad!!"⟩⟩

/-- A multipart message whose only part is `partBad`. -/
def msgBad : EmailMsg :=
  ⟨⟨"multipart/mixed", ⟨none⟩, some [partBad], []⟩⟩

/-- A simple `text/plain` message for the C9 witness. -/
def msgPlain9 : EmailMsg :=
  ⟨⟨"text/plain", ⟨some "Hi and\nBye"⟩, none, []⟩⟩

/-- Leaf extractors that always fail, for the C7 witness. -/
def deps0 : NlpDeps :=
  ⟨fun _ => none, fun _ => none, fun _ => none, fun _ => none, fun _ => none⟩

/-- A fetch function returning a fixed header-less `text/plain` message. -/
def fetch0 : String → Option EmailMsg :=
  fun _ => some ⟨⟨"text/plain", ⟨none⟩, none, []⟩⟩

/-- The record the pipeline assembles for `fetch0`'s message. -/
def r0 : JobEmailRecord :=
  ⟨"m1", "No Subject", "No Sender", "No Date", "", "unknown", none, none⟩

theorem classifyGo_eq_find (subject_lower body_lower : String)
    (l : List (String × List String)) :
    classifyGo subject_lower body_lower l =
      (match l.find? (fun ck =>
          claimCategoryTest subject_lower body_lower ck.1 ck.2) with
       | some ck => ck.1
       | none => "unknown") := by
  induction l with
  | nil => rfl
  | cons head rest ih =>
    obtain ⟨category, keywords⟩ := head
    have hT : claimCategoryTest subject_lower body_lower category keywords =
        (((category == "rejections" || category == "offers")
            && keywords.any (fun k => pyIn (pyLower k) body_lower))
          || keywords.any (fun k => pyIn (pyLower k) subject_lower)) := by
      cases ho : (category == "offers") <;> cases hr : (category == "rejections") <;>
        simp [claimCategoryTest, ho, hr]
    simp only [classifyGo, List.find?, hT]
    cases hB : ((category == "rejections" || category == "offers")
        && keywords.any (fun k => pyIn (pyLower k) body_lower)) <;>
      cases hS : keywords.any (fun k => pyIn (pyLower k) subject_lower) <;>
        simp [hB, hS, ih]

/-- Claim C1: `classify_job_email_with_body` iterates the categories in the
fixed order application, interview, assessment, offers, rejections; for
offers and rejections it tests body containment of every keyword before
subject containment, for the other categories only the subject; it returns
the first category whose test succeeds and `unknown` when no keyword of any
category matches. -/
theorem C1_classifier_order (subject body_text : String) :
    classify_job_email_with_body subject body_text =
      classifyClaim subject body_text := by
  unfold classify_job_email_with_body classifyClaim
  exact classifyGo_eq_find _ _ _

theorem classifyGo_unknown (sl bl : String) :
    ∀ l : List (String × List String),
      (∀ ck ∈ l, ck.2.any (fun k => pyIn (pyLower k) bl) = false) →
      (∀ ck ∈ l, ck.2.any (fun k => pyIn (pyLower k) sl) = false) →
      classifyGo sl bl l = "unknown" := by
  intro l
  induction l with
  | nil => intro _ _; rfl
  | cons head rest ih =>
    intro hb hs
    obtain ⟨c, kws⟩ := head
    have hb1 := hb (c, kws) (by simp)
    have hs1 := hs (c, kws) (by simp)
    simp only [classifyGo]
    rw [if_neg (by simp [hb1]), if_neg (by simp [hs1])]
    exact ih (fun ck hck => hb ck (by simp [hck])) (fun ck hck => hs ck (by simp [hck]))

/-- Claim C3: the rejections keyword list contains the two intended phrases
merged into the single concatenated entry
`move forward with other candidateswith other candidates`, so
`with other candidates` is not a standalone entry; consequently a message
with empty subject whose body contains `with other candidates` but no
keyword of any category classifies as `unknown` rather than `rejections` —
in particular the body `we went with other candidates` does. -/
theorem C3_concatenated_rejection_entry :
    ("move forward with other candidateswith other candidates" ∈
      (JOB_KEYWORDS.lookup "rejections").getD []) ∧
    "with other candidates" ∉ (JOB_KEYWORDS.lookup "rejections").getD [] ∧
    (∀ body : String,
      pyIn "with other candidates" (pyLower body) = true →
      (∀ ck ∈ JOB_KEYWORDS, ∀ k ∈ ck.2, k ≠ "with other candidates" →
        pyIn (pyLower k) (pyLower body) = false) →
      classify_job_email_with_body "" body = "unknown") ∧
    classify_job_email_with_body "" "we went with other candidates" = "unknown" := by
  refine ⟨by decide, by decide, ?_, by decide⟩
  intro body hwoc hothers
  have hnot : ∀ ck ∈ JOB_KEYWORDS, "with other candidates" ∉ ck.2 := by decide
  have hempty : ∀ ck ∈ JOB_KEYWORDS,
      ck.2.any (fun k => pyIn (pyLower k) (pyLower "")) = false := by decide
  have hbl : (if body = "" then "" else pyLower body) = pyLower body := by
    split
    next hb => subst hb; rfl
    next hb => rfl
  unfold classify_job_email_with_body
  rw [hbl]
  apply classifyGo_unknown
  · intro ck hck
    rw [List.any_eq_false]
    intro k hk
    have hne : k ≠ "with other candidates" :=
      fun he => hnot ck hck (he ▸ hk)
    simp [hothers ck hck k hk hne]
  · exact hempty

/-- Witness for C3: the body `we went with other candidates` contains the
phrase, contains no keyword of any category, and classifies as `unknown`. -/
theorem C3_witness :
    pyIn "with other candidates" (pyLower "we went with other candidates") = true ∧
    classify_job_email_with_body "" "we went with other candidates" = "unknown" :=
  ⟨by decide, (C3_concatenated_rejection_entry).2.2.1
    "we went with other candidates" (by decide) (by decide)⟩

/-- Claim C2 is false on the code: for the multipart payload with the two
`text/plain` parts `a` and `b`, `extract_email_body` returns the
concatenation `ab`, not the first part's text `a` as the claim states. -/
theorem C2_counterexample :
    extract_email_body decodeId msgC2 = "ab" ∧
    pyNormalize (claimMultipartBody decodeId partsC2) = "a" ∧
    extract_email_body decodeId msgC2 ≠
      pyNormalize (claimMultipartBody decodeId partsC2) := by
  decide

theorem strConcat_cons (acc t : String) (ts : List String) :
    strConcat acc (t :: ts) = strConcat (acc ++ t) ts := rfl

theorem extract_parts_keep (decode : String → Option String) :
    ∀ (ps : List MsgPart) (acc : String),
      (∀ p ∈ ps, ¬(p.mimeType = "text/plain" ∧ p.body.data.isSome = true)) →
      acc ≠ "" → extract_parts decode ps acc = some acc := by
  intro ps
  induction ps with
  | nil => intro acc _ _; rfl
  | cons p ps ih =>
    intro acc h hacc
    have hp := h p (by simp)
    have ht : ∀ q ∈ ps, ¬(q.mimeType = "text/plain" ∧ q.body.data.isSome = true) :=
      fun q hq => h q (by simp [hq])
    by_cases hm : p.mimeType = "text/plain"
    · have hd : p.body.data = none := by
        cases hq : p.body.data with
        | none => rfl
        | some d => exact absurd ⟨hm, by simp [hq]⟩ hp
      simp only [extract_parts, hd]
      rw [if_pos hm]
      exact ih acc ht hacc
    · by_cases hh : p.mimeType = "text/html"
      · cases hd : p.body.data with
        | none =>
          simp only [extract_parts, hd]
          rw [if_neg hm, if_pos hh]
          exact ih acc ht hacc
        | some d =>
          simp only [extract_parts, hd]
          rw [if_neg hm, if_pos hh, if_neg hacc]
          exact ih acc ht hacc
      · simp only [extract_parts]
        rw [if_neg hm, if_neg hh]
        exact ih acc ht hacc

theorem extract_parts_no_html (decode : String → Option String) :
    ∀ (ps : List MsgPart) (acc : String),
      (∀ p ∈ ps, ¬(p.mimeType = "text/html" ∧ p.body.data.isSome = true)) →
      extract_parts decode ps acc =
        ((ps.filterMap plainData).mapM decode).map (fun ts => strConcat acc ts) := by
  intro ps
  induction ps with
  | nil => intro acc _; rfl
  | cons p ps ih =>
    intro acc h
    have hp := h p (by simp)
    have ht : ∀ q ∈ ps, ¬(q.mimeType = "text/html" ∧ q.body.data.isSome = true) :=
      fun q hq => h q (by simp [hq])
    by_cases hm : p.mimeType = "text/plain"
    · cases hd : p.body.data with
      | some d =>
        have hpd : plainData p = some d := by simp [plainData, hm, hd]
        cases hdec : decode d with
        | none =>
          simp only [extract_parts, hd, hdec, List.filterMap_cons, hpd,
            List.mapM_cons, Option.bind_eq_bind, Option.none_bind]
          rw [if_pos hm]
          rfl
        | some t =>
          simp only [extract_parts, hd, hdec, List.filterMap_cons, hpd,
            List.mapM_cons, Option.bind_eq_bind, Option.some_bind]
          rw [if_pos hm, ih (acc ++ t) ht]
          cases hrest : (ps.filterMap plainData).mapM decode with
          | none => rfl
          | some ts => simp [strConcat_cons]
      | none =>
        have hpd : plainData p = none := by simp [plainData, hm, hd]
        simp only [extract_parts, hd, List.filterMap_cons, hpd]
        rw [if_pos hm]
        exact ih acc ht
    · have hpd : plainData p = none := by simp [plainData, hm]
      by_cases hh : p.mimeType = "text/html"
      · have hd : p.body.data = none := by
          cases hq : p.body.data with
          | none => rfl
          | some d => exact absurd ⟨hh, by simp [hq]⟩ hp
        simp only [extract_parts, hd, List.filterMap_cons, hpd]
        rw [if_neg hm, if_pos hh]
        exact ih acc ht
      · simp only [extract_parts, List.filterMap_cons, hpd]
        rw [if_neg hm, if_neg hh]
        exact ih acc ht

theorem extract_parts_no_plain (decode : String → Option String) :
    ∀ (ps : List MsgPart),
      (∀ p ∈ ps, ¬(p.mimeType = "text/plain" ∧ p.body.data.isSome = true)) →
      extract_parts decode ps "" = htmlFallback decode ps := by
  intro ps
  induction ps with
  | nil => intro _; rfl
  | cons p ps ih =>
    intro h
    have hp := h p (by simp)
    have ht : ∀ q ∈ ps, ¬(q.mimeType = "text/plain" ∧ q.body.data.isSome = true) :=
      fun q hq => h q (by simp [hq])
    by_cases hm : p.mimeType = "text/plain"
    · have hd : p.body.data = none := by
        cases hq : p.body.data with
        | none => rfl
        | some d => exact absurd ⟨hm, by simp [hq]⟩ hp
      simp only [extract_parts, htmlFallback, hd]
      rw [if_pos hm, if_neg (show ¬p.mimeType = "text/html" by rw [hm]; decide)]
      exact ih ht
    · by_cases hh : p.mimeType = "text/html"
      · cases hd : p.body.data with
        | none =>
          simp only [extract_parts, htmlFallback, hd]
          rw [if_neg hm, if_pos hh, if_pos hh]
          exact ih ht
        | some d =>
          cases hdec : decode d with
          | none =>
            simp only [extract_parts, htmlFallback, hd, hdec]
            rw [if_neg hm, if_pos hh, if_pos hh]
            simp
          | some t =>
            by_cases hstrip : pyStripTags t = ""
            · simp only [extract_parts, htmlFallback, hd, hdec]
              rw [if_neg hm, if_pos hh, if_pos hh, if_pos trivial, if_pos hstrip, hstrip]
              exact ih ht
            · simp only [extract_parts, htmlFallback, hd, hdec]
              rw [if_neg hm, if_pos hh, if_pos hh, if_pos trivial, if_neg hstrip]
              exact extract_parts_keep decode ps (pyStripTags t) ht hstrip
      · simp only [extract_parts, htmlFallback]
        rw [if_neg hm, if_neg hh, if_neg hh]
        exact ih ht

/-- Claim C2, amended: for a multipart payload none of whose parts is a
`text/html` part carrying data, the decoder uses the concatenation of the
decoded texts of all `text/plain` parts carrying data (in order, not just
the first) as the raw body, any decode failure aborting to the exception
fallback; and for a multipart payload none of whose parts is a `text/plain`
part carrying data, it falls back to the tag-stripped text of the first
`text/html` part whose tag-stripped text is non-empty (the empty string if
there is none). -/
theorem C2_multipart_amended (decode : String → Option String)
    (payload : Payload) (parts : List MsgPart)
    (hp : payload.parts = some parts) :
    ((∀ p ∈ parts, ¬(p.mimeType = "text/html" ∧ p.body.data.isSome = true)) →
      extract_body_core decode payload =
        ((parts.filterMap plainData).mapM decode).map (fun ts => strConcat "" ts)) ∧
    ((∀ p ∈ parts, ¬(p.mimeType = "text/plain" ∧ p.body.data.isSome = true)) →
      extract_body_core decode payload = htmlFallback decode parts) := by
  constructor
  · intro h
    simp only [extract_body_core, hp]
    exact extract_parts_no_html decode parts "" h
  · intro h
    simp only [extract_body_core, hp]
    exact extract_parts_no_plain decode parts h

/-- Witness for C2: both conjuncts of the amended claim applied at concrete
inputs, the first at the two-plain-part payload, the second at a payload
with a single html part whose data fails to decode. -/
theorem C2_multipart_amended_witness :
    (msgC2.payload.parts = some partsC2 ∧
      (∀ p ∈ partsC2, ¬(p.mimeType = "text/html" ∧ p.body.data.isSome = true)) ∧
      extract_body_core decodeId msgC2.payload =
        ((partsC2.filterMap plainData).mapM decodeId).map (fun ts => strConcat "" ts)) ∧
    (payloadHtmlFail.parts = some partsHtmlFail ∧
      (∀ p ∈ partsHtmlFail, ¬(p.mimeType = "text/plain" ∧ p.body.data.isSome = true)) ∧
      extract_body_core decodeFail payloadHtmlFail =
        htmlFallback decodeFail partsHtmlFail) := by
  constructor
  · exact ⟨rfl, by decide,
      (C2_multipart_amended decodeId msgC2.payload partsC2 rfl).1 (by decide)⟩
  · exact ⟨rfl, by decide,
      (C2_multipart_amended decodeFail payloadHtmlFail partsHtmlFail rfl).2 (by decide)⟩

theorem extract_parts_fail (decode : String → Option String) :
    ∀ (ps : List MsgPart) (p : MsgPart) (d : String), p ∈ ps →
      p.mimeType = "text/plain" → p.body.data = some d → decode d = none →
      ∀ acc, extract_parts decode ps acc = none := by
  intro ps
  induction ps with
  | nil => intro p d hmem; exact absurd hmem (List.not_mem_nil p)
  | cons q qs ih =>
    intro p d hmem hmime hdata hdec acc
    rcases List.mem_cons.mp hmem with rfl | hmem'
    · simp only [extract_parts, hdata, hdec]
      rw [if_pos hmime]
    · by_cases hm : q.mimeType = "text/plain"
      · cases hd : q.body.data with
        | some e =>
          cases hde : decode e with
          | none =>
            simp only [extract_parts, hd, hde]
            rw [if_pos hm]
          | some t =>
            simp only [extract_parts, hd, hde]
            rw [if_pos hm]
            exact ih p d hmem' hmime hdata hdec (acc ++ t)
        | none =>
          simp only [extract_parts, hd]
          rw [if_pos hm]
          exact ih p d hmem' hmime hdata hdec acc
      · by_cases hh : q.mimeType = "text/html"
        · cases hd : q.body.data with
          | some e =>
            by_cases hacc : acc = ""
            · cases hde : decode e with
              | none =>
                simp only [extract_parts, hd, hde]
                rw [if_neg hm, if_pos hh, if_pos hacc]
              | some t =>
                simp only [extract_parts, hd, hde]
                rw [if_neg hm, if_pos hh, if_pos hacc]
                exact ih p d hmem' hmime hdata hdec (pyStripTags t)
            · simp only [extract_parts, hd]
              rw [if_neg hm, if_pos hh, if_neg hacc]
              exact ih p d hmem' hmime hdata hdec acc
          | none =>
            simp only [extract_parts, hd]
            rw [if_neg hm, if_pos hh]
            exact ih p d hmem' hmime hdata hdec acc
        · simp only [extract_parts]
          rw [if_neg hm, if_neg hh]
          exact ih p d hmem' hmime hdata hdec acc

/-- Claim C8: `extract_email_body` never raises to its caller: whenever the
decoding core fails (any exception inside the `try` block), the result is
the empty string; in particular a `text/plain` part whose data fails base64
decoding makes the whole extraction return `''`. -/
theorem C8_decode_failure_yields_empty (decode : String → Option String)
    (msg : EmailMsg) :
    (extract_body_core decode msg.payload = none →
      extract_email_body decode msg = "") ∧
    (∀ ps p d, msg.payload.parts = some ps → p ∈ ps →
      p.mimeType = "text/plain" → p.body.data = some d → decode d = none →
      extract_email_body decode msg = "") := by
  constructor
  · intro h
    simp only [extract_email_body, h]
  · intro ps p d hps hmem hmime hdata hdec
    have hcore : extract_body_core decode msg.payload = none := by
      simp only [extract_body_core, hps]
      exact extract_parts_fail decode ps p d hmem hmime hdata hdec ""
    simp only [extract_email_body, hcore]

/-- Witness for C8: the message `msgBad` has a `text/plain` part whose data
`decodeFail` rejects, and the body extraction indeed returns `''`. -/
theorem C8_witness :
    msgBad.payload.parts = some [partBad] ∧ partBad ∈ [partBad] ∧
    partBad.mimeType = "text/plain" ∧ partBad.body.data = some "!!bad!!" ∧
    decodeFail "!!bad!!" = none ∧
    extract_email_body decodeFail msgBad = "" := by
  refine ⟨rfl, by decide, rfl, rfl, rfl, ?_⟩
  exact (C8_decode_failure_yields_empty decodeFail msgBad).2 [partBad] partBad
    "!!bad!!" rfl (by decide) rfl rfl rfl

theorem toNat_pyLowerChar (c : Char) :
    (pyLowerChar c).toNat =
      if 65 ≤ c.toNat ∧ c.toNat ≤ 90 then c.toNat + 32 else c.toNat := by
  unfold pyLowerChar
  split
  next h => rfl
  next h => rfl

theorem pyLowerChar_no_upper (c : Char) : isUpperAscii (pyLowerChar c) = false := by
  simp only [isUpperAscii, decide_eq_false_iff_not]
  rw [toNat_pyLowerChar]
  split
  next h => omega
  next h => exact h

theorem data_pyLower (s : String) : (pyLower s).data = s.data.map pyLowerChar := rfl

theorem data_pyTake (n : Nat) (s : String) : (pyTake n s).data = s.data.take n := rfl

/-- Claim C9: on a successfully decoded body, `extract_email_body` returns
the raw text with newlines and carriage returns replaced by spaces, stripped,
truncated to 2000 characters, then lower-cased; in particular the result has
no upper-case ASCII letter and is never longer than 2000 characters. -/
theorem C9_normalization (decode : String → Option String) (msg : EmailMsg)
    (raw : String) (h : extract_body_core decode msg.payload = some raw) :
    extract_email_body decode msg = pyNormalize raw ∧
    (extract_email_body decode msg).data.length ≤ 2000 ∧
    (extract_email_body decode msg).data.all (fun c => !isUpperAscii c) = true := by
  have he : extract_email_body decode msg = pyNormalize raw := by
    simp only [extract_email_body, h]
  refine ⟨he, ?_, ?_⟩
  · rw [he]
    simp only [pyNormalize, data_pyLower, data_pyTake, List.length_map,
      List.length_take]
    omega
  · rw [he]
    simp only [pyNormalize, data_pyLower, List.all_map]
    rw [List.all_eq_true]
    intro c _
    simp [Function.comp, pyLowerChar_no_upper]

/-- Witness for C9: a simple `text/plain` message whose body decodes to
`Hi and\nBye`; normalization yields `hi and bye`. -/
theorem C9_witness :
    extract_body_core decodeId msgPlain9.payload = some "Hi and\nBye" ∧
    (extract_email_body decodeId msgPlain9 = pyNormalize "Hi and\nBye" ∧
     (extract_email_body decodeId msgPlain9).data.length ≤ 2000 ∧
     (extract_email_body decodeId msgPlain9).data.all (fun c => !isUpperAscii c) = true) :=
  ⟨by decide, C9_normalization decodeId msgPlain9 "Hi and\nBye" (by decide)⟩

/-- Claim C6: the Non-Job Filter's rules are evaluated in order with the
first true rule winning; it excludes the subject
`Your Chase Cash Back Bonus` for every sender (the financial-keyword rule
fires first), and does not exclude
`Thank you for applying – Software Engineer` from `talent@somecorp.com`. -/
theorem C6_filter_examples :
    (∀ sender, is_non_job_email "Your Chase Cash Back Bonus" sender = true) ∧
    is_non_job_email "Thank you for applying – Software Engineer"
      "talent@somecorp.com" = false := by
  constructor
  · intro sender
    have hf : financialRule (pyLower "Your Chase Cash Back Bonus") = true := by
      decide
    simp [is_non_job_email, hf]
  · decide

/-- Claim C10: the bank-sender rule tests its job-context markers by plain
substring containment, so any sender whose lower-cased form contains `hr`
anywhere is never excluded by the bank rule, whatever bank name it contains
and whatever the subject; the message can then be excluded only by the
financial-keyword, news-sender or generic-interest rules. -/
theorem C10_hr_substring_disables_bank_rule (subject sender : String)
    (h : pyIn "hr" (pyLower sender) = true) :
    bankRule (pyLower subject) (pyLower sender) = false ∧
    is_non_job_email subject sender =
      (financialRule (pyLower subject) || newsRule (pyLower sender)
        || genericInterestRule (pyLower subject)) := by
  have hb : bankRule (pyLower subject) (pyLower sender) = false := by
    simp [bankRule, h]
  refine ⟨hb, ?_⟩
  simp only [is_non_job_email, hb]
  cases hf : financialRule (pyLower subject) <;>
    cases hn : newsRule (pyLower sender) <;>
      cases hg : genericInterestRule (pyLower subject) <;> simp

/-- Witness for C10: the sender `chris@chase.com` contains a bank name but
also the substring `hr` (inside `chris`), so the bank rule is disabled. -/
theorem C10_witness :
    pyIn "hr" (pyLower "chris@chase.com") = true ∧
    (bankRule (pyLower "Chase account alert") (pyLower "chris@chase.com") = false ∧
     is_non_job_email "Chase account alert" "chris@chase.com" =
       (financialRule (pyLower "Chase account alert")
         || newsRule (pyLower "chris@chase.com")
         || genericInterestRule (pyLower "Chase account alert"))) :=
  ⟨by decide, C10_hr_substring_disables_bank_rule "Chase account alert"
    "chris@chase.com" (by decide)⟩

/-- Claim C4: `extract_company` reconciles the two results exactly as the
claim states: with both present the subject result wins unless it is generic
and the sender result is not; a lone subject result is returned
unconditionally; a lone sender result only when not generic; otherwise the
result is absent. -/
theorem C4_company_reconciliation (fsender fsubject : String → Option String)
    (sender subject : Option String) :
    extract_company fsender fsubject sender subject =
      claimReconcile (companyFromOpt fsender sender)
        (companyFromOpt fsubject subject) := by
  unfold extract_company claimReconcile
  cases h1 : pyTruthy (companyFromOpt fsender sender) <;>
    cases h2 : pyTruthy (companyFromOpt fsubject subject) <;>
      cases h3 : genericRes (companyFromOpt fsender sender) <;>
        cases h4 : genericRes (companyFromOpt fsubject subject) <;>
          simp [h1, h2, h3, h4]

/-- Claim C5: `extract_position` tries subject, then body, then preview, the
first source with a truthy (non-empty) cleaned result deciding the output
with no merging, `none` when all fail; and the pipeline's preview is the
first-200-character truncation of the decoded body. -/
theorem C5_position_priority (fsubject fbody fpreview : String → Option String)
    (body preview subject : Option String) (body_text : String) :
    extract_position fsubject fbody fpreview body preview subject =
      claimPositionOrder fsubject fbody fpreview body preview subject ∧
    (pipelinePreview body_text).getD body_text = pyTake 200 body_text ∧
    ((pipelinePreview body_text).getD "").data.length ≤ 200 := by
  refine ⟨?_, ?_, ?_⟩
  · unfold extract_position claimPositionOrder
    cases h1 : tryPosSource fsubject subject <;>
      cases h2 : tryPosSource fbody body <;>
        cases h3 : tryPosSource fpreview preview <;>
          simp [List.findSome?, h1, h2, h3]
  · unfold pipelinePreview
    split
    next hbt => subst hbt; rfl
    next hbt => rfl
  · unfold pipelinePreview
    split
    next hbt => simp
    next hbt =>
      simp only [Option.getD_some, data_pyTake, List.length_take]
      omega

theorem classifyGo_mem (sl bl : String) :
    ∀ l : List (String × List String),
      classifyGo sl bl l = "unknown" ∨ classifyGo sl bl l ∈ l.map Prod.fst := by
  intro l
  induction l with
  | nil => left; rfl
  | cons head rest ih =>
    obtain ⟨c, kws⟩ := head
    simp only [classifyGo]
    by_cases h1 : ((c == "rejections" || c == "offers")
        && kws.any (fun k => pyIn (pyLower k) bl)) = true
    · rw [if_pos h1]; right; simp
    · rw [if_neg h1]
      by_cases h2 : (kws.any (fun k => pyIn (pyLower k) sl)) = true
      · rw [if_pos h2]; right; simp
      · rw [if_neg h2]
        rcases ih with h | h
        · left; exact h
        · right
          simp only [List.map_cons, List.mem_cons]
          right
          exact h

theorem classify_mem_labels (subject body_text : String) :
    classify_job_email_with_body subject body_text ∈ categoryLabels := by
  unfold classify_job_email_with_body
  rcases classifyGo_mem (pyLower subject)
      (if body_text = "" then "" else pyLower body_text) JOB_KEYWORDS with h | h
  · rw [h]; decide
  · rw [show JOB_KEYWORDS.map Prod.fst =
        ["application", "interview", "assessment", "offers", "rejections"] from
      by decide] at h
    simp only [List.mem_cons, List.not_mem_nil, or_false] at h
    rcases h with h | h | h | h | h <;> rw [h] <;> decide

/-- Claim C7: every record in `find_job_emails`'s output (every non-`None`
result of `get_email_details`) is for a message the Non-Job Filter did not
exclude, and its category is one of the six labels. -/
theorem C7_pipeline_invariant (deps : NlpDeps) (decode : String → Option String)
    (fetch : String → Option EmailMsg) (ids : List String) (r : JobEmailRecord)
    (h : r ∈ find_job_emails deps decode fetch ids) :
    is_non_job_email r.subject r.sender = false ∧ r.category ∈ categoryLabels := by
  unfold find_job_emails at h
  rw [List.mem_filterMap] at h
  obtain ⟨mid, _, hget⟩ := h
  unfold get_email_details at hget
  cases hf : fetch mid with
  | none => rw [hf] at hget; exact absurd hget (by simp)
  | some msg =>
    simp only [hf] at hget
    by_cases hnj : is_non_job_email
        (headerValue msg.payload.headers "Subject" "No Subject")
        (headerValue msg.payload.headers "From" "No Sender") = true
    · rw [if_pos hnj] at hget
      exact absurd hget (by simp)
    · rw [if_neg hnj] at hget
      have hr := Option.some.inj hget
      subst hr
      simp only [Bool.not_eq_true] at hnj
      exact ⟨hnj, classify_mem_labels _ _⟩

/-- Witness for C7: a concrete pipeline run producing exactly the record
`r0`, which passes the filter and carries the category `unknown`. -/
theorem C7_witness :
    r0 ∈ find_job_emails deps0 decodeFail fetch0 ["m1"] ∧
    is_non_job_email r0.subject r0.sender = false ∧ r0.category ∈ categoryLabels := by
  have hm : r0 ∈ find_job_emails deps0 decodeFail fetch0 ["m1"] := by decide
  exact ⟨hm, C7_pipeline_invariant deps0 decodeFail fetch0 ["m1"] r0 hm⟩
